import Mathlib

/-!
# The gtkmm "Hello World" prototype (`prototypes/cpp-gtk4/main.cpp`)

A shallow embedding of the program: the `HelloWorld` window class, the
lambda connected to the button's `clicked` signal, and `main`.

The gtkmm toolkit is an external library.  The parts of it the program
calls (`Gtk::Button`, `set_margin`, `set_child`, `signal_clicked().connect`,
`make_window_and_run`) are modelled from the specification as explicit state
passing, and what the toolkit decides on its own (the exit status of the run
loop) is a parameter.  A run is given by the UI events the loop dispatches.
-/

namespace HelloGtk

/-! ## Standard output -/

/-- State of the standard output stream `std::cout`: the characters already
flushed to standard output and the characters inserted into the stream but
not yet flushed. -/
structure OStream where
  flushed : String
  pending : String
  deriving DecidableEq, Repr

/-- State of `std::cout` at program start: nothing written, nothing buffered. -/
def OStream.init : OStream := ⟨"", ""⟩

/-- Insertion `os << s` of a string. -/
def OStream.put (os : OStream) (s : String) : OStream :=
  { os with pending := os.pending ++ s }

/-- Flushing `os.flush()`: everything buffered reaches the output. -/
def OStream.flush (os : OStream) : OStream :=
  { flushed := os.flushed ++ os.pending, pending := "" }

/-- Insertion `os << std::endl`: inserts a newline, then flushes. -/
def OStream.endl (os : OStream) : OStream :=
  (os.put "\n").flush

/-! ## Widgets -/

/-- Modelled from the spec: the slot type of the toolkit's signals, which is
not part of the repository; "a no-argument side-effecting callback".  A slot
wraps a callable of the program.  A callable without captures is its code and
nothing else, and the callables of this program are the lambda expressions of
its source, so a slot is named by the lambda expression it wraps; what the
call does to the state of the program is `Slot.call` below. -/
inductive Slot where
  | lambda22 -- the lambda expression of lines 22-24
  deriving DecidableEq, Repr

/-- Modelled from the spec: the toolkit class `Gtk::Button`, which is not part
of the repository; "the Button has a label string and a single observable
event: clicked".  The slots connected to the signal are kept in connection
order. -/
structure Button where
  label : String
  signal_clicked : List Slot
  deriving DecidableEq, Repr

/-- Modelled from the spec: the toolkit constructor `Gtk::Button(label)`; a
button with that label and no slot connected. -/
def Button.new (label : String) : Button :=
  { label := label, signal_clicked := [] }

/-- Modelled from the spec: the toolkit call `signal_clicked().connect(slot)`,
which "registers a click handler"; the slot is added after those already
connected. -/
def Button.connect_clicked (b : Button) (slot : Slot) : Button :=
  { b with signal_clicked := b.signal_clicked ++ [slot] }

/-- The widgets the program creates and can attach to the window: the member
widgets of `HelloWorld` (lines 10-11). -/
inductive Member where
  | m_button
  deriving DecidableEq, Repr

/-- Class `HelloWorld : public Gtk::Window` (lines 3-12): the member widget
`m_button`, and of the inherited `Gtk::Window` state the margin and the child
the program sets. -/
structure HelloWorld where
  margin : Int
  child : Option Member
  m_button : Button
  deriving DecidableEq, Repr

/-- Modelled from the spec: the toolkit call `set_margin(m)` on the window; it
"sets margin". -/
def HelloWorld.set_margin (w : HelloWorld) (m : Int) : HelloWorld :=
  { w with margin := m }

/-- Modelled from the spec: the toolkit call `set_child(widget)` on the
window; it "attaches the button as the window's sole child" ("a window has at
most one direct child"). -/
def HelloWorld.set_child (w : HelloWorld) (c : Member) : HelloWorld :=
  { w with child := some c }

/-- State of the program during a run, which is what a callback runs in: the
window, whether it is open ("the window is either open or closed (terminal)"),
and `std::cout`. -/
structure RunState where
  window : HelloWorld
  isOpen : Bool
  cout : OStream
  deriving DecidableEq, Repr

/-- The lambda of lines 22-24, `[] () { std::cout << "Hello World" << std::endl; }`,
as a transformer of the state of the program it is called in. -/
def clicked_lambda (s : RunState) : RunState :=
  -- std::cout << "Hello World" << std::endl;
  { s with cout := (s.cout.put "Hello World").endl }

/-- Call of a slot: runs the body of the lambda expression it wraps. -/
def Slot.call : Slot → RunState → RunState
  | Slot.lambda22 => clicked_lambda

/-- Constructor `HelloWorld::HelloWorld()` (lines 14-28), run with `std::cout`
in state `cout`; returns the constructed window and the stream afterwards. -/
def HelloWorld.ctor (cout : OStream) : HelloWorld × OStream :=
  -- : m_button("Hello World"), after the default construction of the Gtk::Window base
  let w0 : HelloWorld := { margin := 0, child := none, m_button := Button.new "Hello World" }
  -- set_margin(10);
  let w1 := w0.set_margin 10
  -- m_button.signal_clicked().connect([] () { ... });
  let w2 := { w1 with m_button := w1.m_button.connect_clicked Slot.lambda22 }
  -- set_child(m_button);
  let w3 := w2.set_child Member.m_button
  (w3, cout)

/-- Destructor `HelloWorld::~HelloWorld()` (lines 30-32): the body is empty. -/
def HelloWorld.dtor (_w : HelloWorld) (cout : OStream) : OStream :=
  cout

/-! ## The toolkit's run loop -/

/-- Modelled from the spec: the UI events of the toolkit, which "one thread
... sequentially dispatches ... to registered handlers". -/
inductive Event where
  | click -- the button receives the "clicked" signal
  | close -- the user asks to close the window
  | other -- any other event: the program has connected no slot to it
  deriving DecidableEq, Repr

/-- Modelled from the spec: the toolkit's emission of a signal, "a
toolkit-dispatched notification ... delivered to registered handlers"; every
connected slot is called once, in connection order, each on the state of the
program the previous one left. -/
def emit (slots : List Slot) (s : RunState) : RunState :=
  slots.foldl (fun st slot => slot.call st) s

/-- Modelled from the spec: the toolkit's dispatch of one event to an open
window; a click emits the button's `clicked` signal, a close request closes
the window, any other event reaches no slot of the program. -/
def dispatch (s : RunState) : Event → RunState
  | Event.click => emit s.window.m_button.signal_clicked s
  | Event.close => { s with isOpen := false }
  | Event.other => s

/-- Modelled from the spec: the toolkit's event loop; events are dispatched in
order for as long as the window is open, and "the user closing the window ...
terminates the loop", so later events are never delivered. -/
def run_loop : RunState → List Event → RunState
  | s, [] => s
  | s, e :: es => if s.isOpen then run_loop (dispatch s e) es else s

/-- What the toolkit decides on its own, taken as a parameter: the exit status
its run loop reports, which may depend on the application id, on the command
line and on the events of the run. -/
structure Toolkit where
  exit_status : String → Int → List String → List Event → Int

/-- Modelled from the spec: the toolkit's application object ("application
shell"), as returned by `Gtk::Application::create(id)`. -/
structure Application where
  toolkit : Toolkit
  id : String

/-- Modelled from the spec: the toolkit call `Gtk::Application::create(id)`. -/
def Application.create (tk : Toolkit) (id : String) : Application :=
  { toolkit := tk, id := id }

/-- Outcome of a run: the exit status (`none` as long as the run loop has not
returned), the final window state and the final state of `std::cout`. -/
structure Outcome where
  status : Option Int
  window : HelloWorld
  isOpen : Bool
  cout : OStream

/-- Modelled from the spec: the toolkit template
`app->make_window_and_run<HelloWorld>(argc, argv)`, which is not part of the
repository; it "instantiates the main window, and runs a blocking event loop
until the window is closed, returning an exit status".  The window is
constructed and shown, the events of the run are dispatched, and once the
window has been closed it is destroyed and the status of the run loop is
returned.  The arguments `ctor` and `dtor` are the constructor and destructor
of the window class the template is instantiated with. -/
def Application.make_window_and_run (app : Application)
    (ctor : OStream → HelloWorld × OStream) (dtor : HelloWorld → OStream → OStream)
    (argc : Int) (argv : List String) (events : List Event) (cout : OStream) : Outcome :=
  let built := ctor cout
  let s := run_loop { window := built.1, isOpen := true, cout := built.2 } events
  if s.isOpen then
    { status := none, window := s.window, isOpen := true, cout := s.cout }
  else
    { status := some (app.toolkit.exit_status app.id argc argv events),
      window := s.window, isOpen := false, cout := dtor s.window s.cout }

/-- Function `main(argc, argv)` (lines 34-40), run against toolkit `tk` with
the UI events `events` and `std::cout` initially empty. -/
def main (tk : Toolkit) (argc : Int) (argv : List String) (events : List Event) : Outcome :=
  -- auto app = Gtk::Application::create("org.gtkmm.example");
  let app := Application.create tk "org.gtkmm.example"
  -- return app->make_window_and_run<HelloWorld>(argc, argv);
  app.make_window_and_run HelloWorld.ctor HelloWorld.dtor argc argv events OStream.init

/-- All characters inserted into the stream so far, flushed or not. -/
def OStream.text (os : OStream) : String :=
  os.flushed ++ os.pending

/-- The text of `n` lines "Hello World". -/
def hello_lines (n : Nat) : String :=
  String.join (List.replicate n "Hello World\n")

/-- A toolkit whose run loop always reports `0`. -/
def Toolkit.normal : Toolkit :=
  { exit_status := fun _ _ _ _ => 0 }

/-- State of the run of `main` when the event loop starts: the window just
constructed and shown, `std::cout` as the constructor left it. -/
def RunState.start : RunState :=
  { window := (HelloWorld.ctor OStream.init).1, isOpen := true,
    cout := (HelloWorld.ctor OStream.init).2 }

/-- Number of clicks the button receives in a run with these events: the
clicks before the first close request. -/
def clicks_delivered : List Event → Nat
  | [] => 0
  | Event.click :: es => clicks_delivered es + 1
  | Event.close :: _ => 0
  | Event.other :: es => clicks_delivered es

/-! ## Lemmas -/

theorem hello_lines_zero : hello_lines 0 = "" := rfl

theorem hello_lines_succ (n : Nat) :
    hello_lines (n + 1) = "Hello World\n" ++ hello_lines n := by
  apply String.ext
  simp [hello_lines, String.join_eq, List.replicate_succ]

theorem hello_lines_succ_right (n : Nat) :
    hello_lines (n + 1) = hello_lines n ++ "Hello World\n" := by
  induction n with
  | zero => rfl
  | succ k ih =>
    rw [hello_lines_succ (k + 1), ih, ← String.append_assoc, ← hello_lines_succ k, ih]

theorem clicked_lambda_apply (s : RunState) :
    clicked_lambda s
      = { s with cout := { flushed := s.cout.flushed ++ s.cout.pending ++ "Hello World\n",
                           pending := "" } } := by
  have h : "Hello World" ++ "\n" = "Hello World\n" := by decide
  simp [clicked_lambda, OStream.endl, OStream.put, OStream.flush, String.append_assoc, h]

theorem emit_frame (slots : List Slot) (s : RunState) :
    (emit slots s).window = s.window ∧ (emit slots s).isOpen = s.isOpen := by
  induction slots generalizing s with
  | nil => exact ⟨rfl, rfl⟩
  | cons slot rest ih =>
    cases slot
    have h := ih (clicked_lambda s)
    simpa [emit, Slot.call, clicked_lambda_apply] using h

theorem emit_clicked_lambda (s : RunState) :
    emit [Slot.lambda22] s
      = { s with cout := { flushed := s.cout.flushed ++ s.cout.pending ++ "Hello World\n",
                           pending := "" } } := by
  simp [emit, Slot.call, clicked_lambda_apply]

theorem dispatch_window (s : RunState) (e : Event) : (dispatch s e).window = s.window := by
  cases e with
  | click => exact (emit_frame _ s).1
  | close => rfl
  | other => rfl

theorem dispatch_click_isOpen (s : RunState) :
    (dispatch s Event.click).isOpen = s.isOpen :=
  (emit_frame _ s).2

theorem run_loop_closed (s : RunState) (h : s.isOpen = false) (es : List Event) :
    run_loop s es = s := by
  cases es with
  | nil => rfl
  | cons e es => simp [run_loop, h]

theorem run_loop_window (s : RunState) (es : List Event) :
    (run_loop s es).window = s.window := by
  induction es generalizing s with
  | nil => rfl
  | cons e es ih =>
    unfold run_loop
    split
    · rw [ih, dispatch_window]
    · rfl

theorem run_loop_isOpen (s : RunState) (hopen : s.isOpen = true) (es : List Event) :
    (run_loop s es).isOpen = !decide (Event.close ∈ es) := by
  induction es generalizing s with
  | nil => simpa [run_loop] using hopen
  | cons e es ih =>
    cases e with
    | click =>
      simpa [run_loop, hopen] using
        ih (dispatch s Event.click) ((dispatch_click_isOpen s).trans hopen)
    | close => simp [run_loop, hopen, dispatch, run_loop_closed]
    | other => simpa [run_loop, hopen] using ih (dispatch s Event.other) hopen

theorem run_loop_cout (s : RunState) (hopen : s.isOpen = true)
    (hreg : s.window.m_button.signal_clicked = [Slot.lambda22])
    (hflushed : s.cout.pending = "") (es : List Event) :
    (run_loop s es).cout
      = { flushed := s.cout.flushed ++ hello_lines (clicks_delivered es), pending := "" } := by
  induction es generalizing s with
  | nil =>
    cases s with
    | mk w o c =>
      cases c with
      | mk f p =>
        simp only at hflushed
        simp [run_loop, clicks_delivered, hello_lines_zero, hflushed]
  | cons e es ih =>
    cases e with
    | click =>
      have h := ih (dispatch s Event.click) ((dispatch_click_isOpen s).trans hopen)
        ((congrArg (fun w => w.m_button.signal_clicked) (dispatch_window s Event.click)).trans hreg)
        (by simp [dispatch, hreg, emit_clicked_lambda])
      simp only [run_loop, hopen, if_true, clicks_delivered]
      rw [h, hello_lines_succ]
      simp [dispatch, hreg, emit_clicked_lambda, hflushed, String.append_assoc]
    | close =>
      cases s with
      | mk w o c =>
        cases c with
        | mk f p =>
          simp only at hflushed hopen
          simp [run_loop, hopen, dispatch, run_loop_closed, clicks_delivered,
            hello_lines_zero, hflushed]
    | other =>
      have h := ih (dispatch s Event.other) hopen hreg hflushed
      simpa [run_loop, hopen, clicks_delivered, dispatch] using h

theorem main_cout (tk : Toolkit) (argc : Int) (argv : List String) (es : List Event) :
    (main tk argc argv es).cout
      = { flushed := hello_lines (clicks_delivered es), pending := "" } := by
  have h := run_loop_cout
    { window := (HelloWorld.ctor OStream.init).1, isOpen := true,
      cout := (HelloWorld.ctor OStream.init).2 } rfl rfl rfl es
  simp only [main, Application.make_window_and_run]
  split
  · rw [h]; rfl
  · simp only [HelloWorld.dtor]; rw [h]; rfl

theorem main_status (tk : Toolkit) (argc : Int) (argv : List String) (es : List Event) :
    (main tk argc argv es).status
      = if Event.close ∈ es then some (tk.exit_status "org.gtkmm.example" argc argv es)
        else none := by
  have h := run_loop_isOpen
    { window := (HelloWorld.ctor OStream.init).1, isOpen := true,
      cout := (HelloWorld.ctor OStream.init).2 } rfl es
  simp only [main, Application.make_window_and_run, h]
  by_cases hc : Event.close ∈ es <;> simp [hc, Application.create]

theorem clicks_delivered_of_not_mem (es : List Event) (h : Event.click ∉ es) :
    clicks_delivered es = 0 := by
  induction es with
  | nil => rfl
  | cons e es ih =>
    cases e with
    | click => simp at h
    | close => rfl
    | other => simpa [clicks_delivered] using ih (by simpa using h)

theorem clicks_delivered_replicate (n : Nat) :
    clicks_delivered (List.replicate n Event.click) = n := by
  induction n with
  | zero => rfl
  | succ k ih => simp [List.replicate_succ, clicks_delivered, ih]

theorem clicks_delivered_append_click (pre : List Event) (h : Event.close ∉ pre) :
    clicks_delivered (pre ++ [Event.click]) = clicks_delivered pre + 1 := by
  induction pre with
  | nil => rfl
  | cons e es ih =>
    cases e with
    | click => simpa [clicks_delivered] using ih (by simpa using h)
    | close => simp at h
    | other => simpa [clicks_delivered] using ih (by simpa using h)

/-! ## The properties of the program -/

/-- C1: whatever the toolkit and the command line, a run in which the button
receives `n` clicks while the window is open leaves on standard output exactly
`n` lines "Hello World", all of them flushed, and nothing else; this holds in
particular for the run made of `n` clicks, and one more click appends exactly
one more line. -/
theorem click_prints_one_line_each (tk : Toolkit) (argc : Int) (argv : List String)
    (n : Nat) (events : List Event) (hn : clicks_delivered events = n) :
    (main tk argc argv events).cout
        = { flushed := String.join (List.replicate n "Hello World\n"), pending := "" }
      ∧ (main tk argc argv (List.replicate n Event.click)).cout
        = { flushed := String.join (List.replicate n "Hello World\n"), pending := "" }
      ∧ (main tk argc argv (List.replicate (n + 1) Event.click)).cout.flushed
        = (main tk argc argv (List.replicate n Event.click)).cout.flushed
            ++ "Hello World\n" := by
  refine ⟨?_, ?_, ?_⟩
  · rw [main_cout, hn]; rfl
  · rw [main_cout, clicks_delivered_replicate]; rfl
  · rw [main_cout, main_cout, clicks_delivered_replicate, clicks_delivered_replicate]
    exact hello_lines_succ_right n

/-- Witness of C1: two clicks, another event, a close request and a click
that arrives too late print two lines. -/
theorem click_prints_one_line_each_witness :
    clicks_delivered [Event.click, Event.other, Event.click, Event.close, Event.click] = 2
      ∧ (main Toolkit.normal 1 ["vimp"]
            [Event.click, Event.other, Event.click, Event.close, Event.click]).cout
          = { flushed := "Hello World\nHello World\n", pending := "" } :=
  ⟨by decide,
    (click_prints_one_line_each Toolkit.normal 1 ["vimp"] 2
      [Event.click, Event.other, Event.click, Event.close, Event.click] (by decide)).1⟩

/-- C2: the constructor of `HelloWorld` leaves `std::cout` as it found it, and
a run whose events contain no click (the empty run and runs ending in a close
request included) leaves standard output empty, with nothing buffered. -/
theorem no_output_without_click (tk : Toolkit) (argc : Int) (argv : List String)
    (events : List Event) (hno : Event.click ∉ events) :
    (∀ cout : OStream, (HelloWorld.ctor cout).2 = cout)
      ∧ (main tk argc argv []).cout = OStream.init
      ∧ (main tk argc argv events).cout = OStream.init
      ∧ (main tk argc argv (events ++ [Event.close])).cout = OStream.init := by
  refine ⟨fun _ => rfl, ?_, ?_, ?_⟩
  · rw [main_cout]; rfl
  · rw [main_cout, clicks_delivered_of_not_mem events hno]; rfl
  · rw [main_cout, clicks_delivered_of_not_mem (events ++ [Event.close]) (by simpa using hno)]
    rfl

/-- Witness of C2: a run with two other events and a close request. -/
theorem no_output_without_click_witness :
    Event.click ∉ [Event.other, Event.other, Event.close]
      ∧ (main Toolkit.normal 1 ["vimp"] [Event.other, Event.other, Event.close]).cout
          = OStream.init :=
  ⟨by decide,
    (no_output_without_click Toolkit.normal 1 ["vimp"]
      [Event.other, Event.other, Event.close] (by decide)).2.2.1⟩

/-- C3: `main` returns what `make_window_and_run` returns, unchanged; so when
the window is closed during the run and the toolkit's run loop reports the
status `r` for the application, the command line and the events of that run,
`main` returns exactly `r`. -/
theorem main_returns_loop_status (tk : Toolkit) (argc : Int) (argv : List String)
    (events : List Event) (r : Int) (hclose : Event.close ∈ events)
    (hr : tk.exit_status "org.gtkmm.example" argc argv events = r) :
    (main tk argc argv events).status
        = ((Application.create tk "org.gtkmm.example").make_window_and_run
            HelloWorld.ctor HelloWorld.dtor argc argv events OStream.init).status
      ∧ (main tk argc argv events).status = some r := by
  refine ⟨rfl, ?_⟩
  rw [main_status, if_pos hclose, hr]

/-- Witness of C3: a normal close, for which the loop reports `0`, gives the
exit status `0`. -/
theorem main_returns_loop_status_witness :
    Event.close ∈ [Event.click, Event.close]
      ∧ Toolkit.normal.exit_status "org.gtkmm.example" 1 ["vimp"] [Event.click, Event.close] = 0
      ∧ (main Toolkit.normal 1 ["vimp"] [Event.click, Event.close]).status = some 0 :=
  ⟨by decide, rfl,
    (main_returns_loop_status Toolkit.normal 1 ["vimp"] [Event.click, Event.close] 0
      (by decide) rfl).2⟩

/-- C4: right after construction the window has margin 10, its child is the
member `m_button`, the label of that button is "Hello World", and the slots
connected to the button's `clicked` signal are exactly one, which wraps the
lambda of lines 22-24 and whose call runs `clicked_lambda`. -/
theorem ctor_window_state (cout : OStream) :
    (HelloWorld.ctor cout).1.margin = 10
      ∧ (HelloWorld.ctor cout).1.child = some Member.m_button
      ∧ (HelloWorld.ctor cout).1.m_button.label = "Hello World"
      ∧ (HelloWorld.ctor cout).1.m_button.signal_clicked = [Slot.lambda22]
      ∧ (HelloWorld.ctor cout).1.m_button.signal_clicked.map Slot.call = [clicked_lambda]
      ∧ (HelloWorld.ctor cout).1.m_button.signal_clicked.length = 1 :=
  ⟨rfl, rfl, rfl, rfl, rfl, rfl⟩

/-- C5: called in any open window, whatever its margin, child and label and
whatever `std::cout` holds, the click handler `clicked_lambda` leaves the
window open, leaves its child, the label of the button, the margin and the
connected slots as they were, and changes the state of the program only by
appending the flushed line "Hello World" to `std::cout`; the handling of a
click event leaves the same things as they were, and in a window on which the
handler is the connected slot its only effect is that appended line. -/
theorem click_keeps_window (s : RunState) (hopen : s.isOpen = true) :
    ((clicked_lambda s).isOpen = true
        ∧ (clicked_lambda s).window.child = s.window.child
        ∧ (clicked_lambda s).window.m_button.label = s.window.m_button.label
        ∧ (clicked_lambda s).window.margin = s.window.margin
        ∧ (clicked_lambda s).window.m_button.signal_clicked
            = s.window.m_button.signal_clicked
        ∧ clicked_lambda s
            = { s with cout :=
                  { flushed := s.cout.flushed ++ s.cout.pending ++ "Hello World\n",
                    pending := "" } })
      ∧ ((dispatch s Event.click).isOpen = true
        ∧ (dispatch s Event.click).window.child = s.window.child
        ∧ (dispatch s Event.click).window.m_button.label = s.window.m_button.label
        ∧ (dispatch s Event.click).window.margin = s.window.margin
        ∧ (dispatch s Event.click).window.m_button.signal_clicked
            = s.window.m_button.signal_clicked
        ∧ run_loop s [Event.click] = dispatch s Event.click)
      ∧ (s.window.m_button.signal_clicked = [Slot.lambda22] →
          dispatch s Event.click
            = { s with cout :=
                  { flushed := s.cout.flushed ++ s.cout.pending ++ "Hello World\n",
                    pending := "" } }) := by
  have hl := clicked_lambda_apply s
  have hw := dispatch_window s Event.click
  refine ⟨⟨?_, ?_, ?_, ?_, ?_, hl⟩, ⟨?_, ?_, ?_, ?_, ?_, ?_⟩, ?_⟩
  · rw [hl]; exact hopen
  · rw [hl]
  · rw [hl]
  · rw [hl]
  · rw [hl]
  · exact (dispatch_click_isOpen s).trans hopen
  · rw [hw]
  · rw [hw]
  · rw [hw]
  · rw [hw]
  · simp [run_loop, hopen]
  · intro hreg
    simp [dispatch, hreg, emit_clicked_lambda]

/-- Witness of C5: a click in the window as `main` shows it. -/
theorem click_keeps_window_witness :
    RunState.start.isOpen = true
      ∧ RunState.start.window.m_button.signal_clicked = [Slot.lambda22]
      ∧ (clicked_lambda RunState.start).isOpen = true
      ∧ (dispatch RunState.start Event.click).isOpen = true
      ∧ (dispatch RunState.start Event.click).window.child = some Member.m_button
      ∧ dispatch RunState.start Event.click
          = { RunState.start with cout := { flushed := "Hello World\n", pending := "" } } :=
  ⟨rfl, rfl, (click_keeps_window RunState.start rfl).1.1,
    (click_keeps_window RunState.start rfl).2.1.1,
    (click_keeps_window RunState.start rfl).2.1.2.1,
    (click_keeps_window RunState.start rfl).2.2 rfl⟩

/-- C6: `main` hands `argc` and `argv` as they are to `make_window_and_run`
and does nothing else with them: for one toolkit and one sequence of events,
two command lines give the same output, the same window and the same
open/closed state. -/
theorem main_ignores_args (tk : Toolkit) (argc argc' : Int) (argv argv' : List String)
    (events : List Event) :
    main tk argc argv events
        = (Application.create tk "org.gtkmm.example").make_window_and_run
            HelloWorld.ctor HelloWorld.dtor argc argv events OStream.init
      ∧ (main tk argc argv events).cout = (main tk argc' argv' events).cout
      ∧ (main tk argc argv events).window = (main tk argc' argv' events).window
      ∧ (main tk argc argv events).isOpen = (main tk argc' argv' events).isOpen := by
  refine ⟨rfl, ?_, ?_, ?_⟩
  · rw [main_cout, main_cout]
  · simp only [main, Application.make_window_and_run]
    split <;> simp [run_loop_window]
  · simp only [main, Application.make_window_and_run]
    split <;> rfl

/-- C8: in whatever state of the program it is called (any window, open or
not, any contents of `std::cout`), the lambda appends the same text
"Hello World\n" to `std::cout`, and in a run of `main` the click that follows
any events `pre` that leave the window open appends that same text, whatever
the toolkits and command lines of the runs compared. -/
theorem clicked_lambda_stateless (s : RunState) (tk tk' : Toolkit) (argc argc' : Int)
    (argv argv' : List String) (pre : List Event) (hopen : Event.close ∉ pre) :
    (clicked_lambda s).cout.text = s.cout.text ++ "Hello World\n"
      ∧ (main tk argc argv (pre ++ [Event.click])).cout.text
          = (main tk' argc' argv' pre).cout.text ++ "Hello World\n" := by
  refine ⟨?_, ?_⟩
  · simp [clicked_lambda_apply, OStream.text]
  · rw [main_cout, main_cout, clicks_delivered_append_click pre hopen]
    simp [OStream.text, hello_lines_succ_right]

/-- Witness of C8: the lambda called in a closed window with a stream that
holds text, and the third click of one run against the first two clicks of a
run with another command line. -/
theorem clicked_lambda_stateless_witness :
    Event.close ∉ [Event.click, Event.other, Event.click]
      ∧ (clicked_lambda { window := RunState.start.window, isOpen := false,
                          cout := { flushed := "a", pending := "b" } }).cout.text
          = "ab" ++ "Hello World\n"
      ∧ (main Toolkit.normal 1 ["vimp"]
            ([Event.click, Event.other, Event.click] ++ [Event.click])).cout.text
          = (main Toolkit.normal 2 ["vimp", "--x"]
              [Event.click, Event.other, Event.click]).cout.text ++ "Hello World\n" :=
  ⟨by decide,
    (clicked_lambda_stateless
      { window := RunState.start.window, isOpen := false,
        cout := { flushed := "a", pending := "b" } } Toolkit.normal Toolkit.normal
      1 2 ["vimp"] ["vimp", "--x"] [Event.click, Event.other, Event.click] (by decide)).1,
    (clicked_lambda_stateless
      { window := RunState.start.window, isOpen := false,
        cout := { flushed := "a", pending := "b" } } Toolkit.normal Toolkit.normal
      1 2 ["vimp"] ["vimp", "--x"] [Event.click, Event.other, Event.click] (by decide)).2⟩

end HelloGtk
